import Mathlib

/-!
# Verification-code lifecycle: shallow embedding

Shallow embedding of the OTP / password-reset-token subsystem of
`backend/apps/users` (Django): the three record models in
`apps/users/models.py` (`EmailVerificationOTP`, `PasswordResetOTP`,
`PasswordResetToken`), the issuance and confirmation serializers in
`apps/users/api/serializers.py`, and the views in `apps/users/api/views.py`.

Modelling conventions:
- Timestamps are `Nat` (seconds); the clock `timezone.now()` is passed
  explicitly as a `now` argument. `timedelta(minutes=15)` is `15 * 60`,
  `timedelta(hours=1)` is `60 * 60`.
- Database rows are values in lists inside a `Store`; primary keys are `Nat`
  ids handed out from `Store.next_id`. The `user` foreign key is the owning
  user's id.  All three record models share the record structure `OTPRecord`;
  for `PasswordResetToken` the `token` column is held in the `code` field.
- Random code/token generation (`secrets.randbelow` / `secrets.token_urlsafe`)
  is nondeterministic, so the generated secret is an explicit argument of
  `create_for_user`.
- `QuerySet.update`, `Model.save(update_fields=...)` become pure functions on
  the store.  Celery task enqueues (`send_otp_email.delay`, ...) are recorded
  in `Store.notifications`.
- DRF `ValidationError` and uncaught exceptions (HTTP 500, e.g. Django's
  `MultipleObjectsReturned` escaping a bare `objects.get`) are the two
  constructors of `ApiError`.
- Django's external password-strength validator
  (`django.contrib.auth.password_validation.validate_password`) is an
  abstract parameter `pwCheck : String → Option String` (`none` = password
  accepted, `some msg` = rejected with message `msg`).
-/

namespace VerificationCore

/-- A persisted verification record: the common row shape of
`EmailVerificationOTP`, `PasswordResetOTP` and `PasswordResetToken`
(`apps/users/models.py`): `{id, user, code/token, created, expires_at,
is_used}`. -/
structure OTPRecord where
  id : Nat
  user_id : Nat
  code : String
  created : Nat
  expires_at : Nat
  is_used : Bool
deriving DecidableEq, Repr

/-- A row of the custom `User` model (`apps/users/models.py`): the fields the
subsystem reads or writes.  `password` stands for the stored password hash. -/
structure User where
  id : Nat
  email : String
  is_email_verified : Bool
  password : String
deriving DecidableEq, Repr

/-- An enqueued Celery notification task (`apps/users/tasks.py` call sites in
the serializers). -/
inductive Notif where
  | send_otp_email (user_id : Nat) (code : String)
  | send_password_reset_email (user_id : Nat) (token : String)
  | send_password_reset_otp_email (user_id : Nat) (code : String)
deriving DecidableEq, Repr

/-- The shared durable record store: user table, the three purpose-scoped
record collections, the enqueued notifications, and the id source. -/
structure Store where
  users : List User
  emailOtps : List OTPRecord
  passwordResetOtps : List OTPRecord
  passwordResetTokens : List OTPRecord
  notifications : List Notif
  next_id : Nat
deriving DecidableEq, Repr

/-- Errors surfaced by a request: `validation` is a DRF `ValidationError`
(HTTP 400) carrying its message; `serverError` is an uncaught exception
(HTTP 500), e.g. `MultipleObjectsReturned` escaping `objects.get`. -/
inductive ApiError where
  | validation (msg : String)
  | serverError (msg : String)
deriving DecidableEq, Repr

/-- Embeds `User.objects.get(email=email)` wrapped in try/except `DoesNotExist`:
emails are unique (`EmailField(unique=True)`), modelled by `find?`. -/
def findUser (users : List User) (email : String) : Option User :=
  users.find? (fun u => u.email = email)

/-- Embeds Python `str.lower()` as used for email normalization in the
serializers: lowercase every character. -/
def strLower (s : String) : String := String.mk (s.data.map Char.toLower)

/-- Django `objects.get(...)` semantics on a filtered collection: zero rows
raise `DoesNotExist`, more than one raise `MultipleObjectsReturned`. -/
inductive GetResult (α : Type) where
  | found (a : α)
  | notFound
  | multiple
deriving DecidableEq, Repr

/-- Runs `objects.get` with predicate `p`: exactly one match required. -/
def djangoGet (l : List OTPRecord) (p : OTPRecord → Bool) : GetResult OTPRecord :=
  match l.filter p with
  | [] => .notFound
  | [r] => .found r
  | _ :: _ :: _ => .multiple

/-- Embeds `.order_by("-created").first()`: a record of maximal `created` among the
matches (`none` on an empty queryset).  On ties the earlier row is kept. -/
def latestFirst : List OTPRecord → Option OTPRecord
  | [] => none
  | r :: t =>
    match latestFirst t with
    | none => some r
    | some b => if b.created > r.created then some b else some r

namespace EmailVerificationOTP

/-- Embeds `EmailVerificationOTP.create_for_user` (`models.py:97-102`): persist a new
row with `expires_at = now + 15 minutes` and `is_used = False`.  No other row
is touched. -/
def create_for_user (s : Store) (user_id : Nat) (code : String) (now : Nat) :
    Store × OTPRecord :=
  let r : OTPRecord :=
    { id := s.next_id, user_id := user_id, code := code, created := now,
      expires_at := now + 15 * 60, is_used := false }
  ({ s with emailOtps := s.emailOtps ++ [r], next_id := s.next_id + 1 }, r)

/-- Embeds `EmailVerificationOTP.is_valid` (`models.py:104-106`):
`not self.is_used and self.expires_at > timezone.now()`.  Pure. -/
def is_valid (r : OTPRecord) (now : Nat) : Bool :=
  !r.is_used && decide (r.expires_at > now)

/-- Embeds `EmailVerificationOTP.mark_as_used` (`models.py:108-111`): an
unconditional `save(update_fields=["is_used", "modified"])` of the row with
this primary key — no `WHERE is_used = false` guard, no row-count check. -/
def mark_as_used (s : Store) (id : Nat) : Store :=
  { s with emailOtps := s.emailOtps.map fun r =>
      if r.id = id then { r with is_used := true } else r }

end EmailVerificationOTP

namespace PasswordResetOTP

/-- Embeds `PasswordResetOTP.create_for_user` (`models.py:144-153`): first
`filter(user=user, is_used=False).update(is_used=True)` on every existing row
of this user, then persist a new row with `expires_at = now + 15 minutes` and
`is_used = False`. -/
def create_for_user (s : Store) (user_id : Nat) (code : String) (now : Nat) :
    Store × OTPRecord :=
  let invalidated := s.passwordResetOtps.map fun r =>
    if r.user_id = user_id && !r.is_used then { r with is_used := true } else r
  let r : OTPRecord :=
    { id := s.next_id, user_id := user_id, code := code, created := now,
      expires_at := now + 15 * 60, is_used := false }
  ({ s with passwordResetOtps := invalidated ++ [r], next_id := s.next_id + 1 }, r)

/-- Embeds `PasswordResetOTP.is_valid` (`models.py:155-157`). -/
def is_valid (r : OTPRecord) (now : Nat) : Bool :=
  !r.is_used && decide (r.expires_at > now)

/-- Embeds `PasswordResetOTP.mark_as_used` (`models.py:159-162`): unconditional
row save, as for the email OTP. -/
def mark_as_used (s : Store) (id : Nat) : Store :=
  { s with passwordResetOtps := s.passwordResetOtps.map fun r =>
      if r.id = id then { r with is_used := true } else r }

end PasswordResetOTP

namespace PasswordResetToken

/-- Embeds `PasswordResetToken.create_for_user` (`models.py:195-200`):
`expires_at = now + 1 hour`; the fresh token string is stored in the `code`
field.  No other row is touched. -/
def create_for_user (s : Store) (user_id : Nat) (token : String) (now : Nat) :
    Store × OTPRecord :=
  let r : OTPRecord :=
    { id := s.next_id, user_id := user_id, code := token, created := now,
      expires_at := now + 60 * 60, is_used := false }
  ({ s with passwordResetTokens := s.passwordResetTokens ++ [r], next_id := s.next_id + 1 }, r)

/-- Embeds `PasswordResetToken.is_valid` (`models.py:202-204`). -/
def is_valid (r : OTPRecord) (now : Nat) : Bool :=
  !r.is_used && decide (r.expires_at > now)

/-- Embeds `PasswordResetToken.mark_as_used` (`models.py:206-209`): unconditional
row save. -/
def mark_as_used (s : Store) (id : Nat) : Store :=
  { s with passwordResetTokens := s.passwordResetTokens.map fun r =>
      if r.id = id then { r with is_used := true } else r }

end PasswordResetToken

/-! ## Confirmation flows

Each DRF endpoint runs in two phases against the shared store: the
serializer's read-only validation (`Serializer.validate`, plus the field-level
validators DRF runs before it), then the state-changing view/`save()` code.
Each flow below is given as a validate phase, an apply phase, and their
sequential composition, which is the behaviour of one whole request executed
without interference. -/

/-- Validation phase of `POST /auth/verify-otp/`
(`OTPVerificationSerializer.validate`, `serializers.py:92-133`): lowercase
the email, look up the user, select the most recent row matching
`(user, code, is_used=False)`, re-check `is_valid()`.  Read-only; on success
returns the ids of the user and the chosen OTP row. -/
def otpVerifyValidate (s : Store) (email code : String) (now : Nat) :
    Except ApiError (Nat × Nat) :=
  match findUser s.users (strLower email) with
  | none => .error (.validation "Invalid email or verification code.")
  | some user =>
    match latestFirst (s.emailOtps.filter fun r =>
        r.user_id = user.id && r.code = code && !r.is_used) with
    | none => .error (.validation "Invalid email or verification code.")
    | some otp =>
      if EmailVerificationOTP.is_valid otp now then .ok (user.id, otp.id)
      else .error (.validation "Verification code has expired or is invalid.")

/-- Apply phase of `POST /auth/verify-otp/` (`OTPVerificationView.post`,
`views.py:70-89`): set `is_email_verified = True` on the user, then
`otp.mark_as_used()`.  Unconditional on the state it finds. -/
def otpVerifyApply (s : Store) (user_id otp_id : Nat) : Store :=
  EmailVerificationOTP.mark_as_used
    { s with users := s.users.map fun u =>
        if u.id = user_id then { u with is_email_verified := true } else u }
    otp_id

/-- One whole `POST /auth/verify-otp/` request: validate then apply; returns
the view's success message. -/
def otpVerificationConfirm (s : Store) (email code : String) (now : Nat) :
    Except ApiError (Store × String) :=
  match otpVerifyValidate s email code now with
  | .error e => .error e
  | .ok (uid, oid) => .ok (otpVerifyApply s uid oid, "Email verified successfully.")

/-- Validation phase of `POST /auth/password-reset-otp/confirm/`
(`PasswordResetOTPConfirmSerializer`, `serializers.py:355-407`): DRF runs the
field validator `validate_password` (external strength check `pwCheck`)
before `validate`, which looks up the user by email and then a *unique* row
via `objects.get(user=user, code=code, is_used=False)` — `DoesNotExist` is
caught, `MultipleObjectsReturned` is not — and re-checks `is_valid()`. -/
def prOtpConfirmValidate (pwCheck : String → Option String) (s : Store)
    (email code password : String) (now : Nat) : Except ApiError (Nat × Nat) :=
  match pwCheck password with
  | some m => .error (.validation m)
  | none =>
    match findUser s.users (strLower email) with
    | none => .error (.validation "Invalid email or code.")
    | some user =>
      match djangoGet s.passwordResetOtps (fun r =>
          r.user_id = user.id && r.code = code && !r.is_used) with
      | .notFound => .error (.validation "Invalid or expired OTP code.")
      | .multiple => .error (.serverError "MultipleObjectsReturned")
      | .found otp =>
        if PasswordResetOTP.is_valid otp now then .ok (user.id, otp.id)
        else .error (.validation "OTP code has expired. Please request a new one.")

/-- Apply phase of `POST /auth/password-reset-otp/confirm/`
(`PasswordResetOTPConfirmSerializer.save`, `serializers.py:409-422`):
`user.set_password(new_password)` then `otp.mark_as_used()`. -/
def prOtpConfirmApply (s : Store) (user_id otp_id : Nat) (password : String) : Store :=
  PasswordResetOTP.mark_as_used
    { s with users := s.users.map fun u =>
        if u.id = user_id then { u with password := password } else u }
    otp_id

/-- One whole `POST /auth/password-reset-otp/confirm/` request; returns the
affected user's id. -/
def passwordResetOTPConfirm (pwCheck : String → Option String) (s : Store)
    (email code password : String) (now : Nat) : Except ApiError (Store × Nat) :=
  match prOtpConfirmValidate pwCheck s email code password now with
  | .error e => .error e
  | .ok (uid, oid) => .ok (prOtpConfirmApply s uid oid password, uid)

/-- Validation phase of `POST /auth/password-reset/confirm/`
(`PasswordResetConfirmSerializer`, `serializers.py:230-272`): field-level
`validate_password` first, then `objects.get(token=token, is_used=False)`
(only `DoesNotExist` caught) and an `is_valid()` re-check — expired and
not-found share one message here. -/
def prTokenConfirmValidate (pwCheck : String → Option String) (s : Store)
    (token password : String) (now : Nat) : Except ApiError (Nat × Nat) :=
  match pwCheck password with
  | some m => .error (.validation m)
  | none =>
    match djangoGet s.passwordResetTokens (fun r => r.code = token && !r.is_used) with
    | .notFound => .error (.validation "Invalid or expired password reset token.")
    | .multiple => .error (.serverError "MultipleObjectsReturned")
    | .found tok =>
      if PasswordResetToken.is_valid tok now then .ok (tok.user_id, tok.id)
      else .error (.validation "Invalid or expired password reset token.")

/-- Apply phase of `POST /auth/password-reset/confirm/`
(`PasswordResetConfirmSerializer.save`, `serializers.py:274-287`):
`user.set_password` then `reset_token.mark_as_used()`. -/
def prTokenConfirmApply (s : Store) (user_id token_id : Nat) (password : String) : Store :=
  PasswordResetToken.mark_as_used
    { s with users := s.users.map fun u =>
        if u.id = user_id then { u with password := password } else u }
    token_id

/-- One whole `POST /auth/password-reset/confirm/` request. -/
def passwordResetConfirm (pwCheck : String → Option String) (s : Store)
    (token password : String) (now : Nat) : Except ApiError (Store × Nat) :=
  match prTokenConfirmValidate pwCheck s token password now with
  | .error e => .error e
  | .ok (uid, tid) => .ok (prTokenConfirmApply s uid tid password, uid)

/-! ## Issuance flows -/

/-- Embeds `ResendOTPSerializer.save` (`serializers.py:145-166`): look up the user by
lowercased email; a missing user is a silent no-op success (anti-enumeration);
an already-verified user raises `ValidationError`; otherwise create a fresh
email OTP and enqueue `send_otp_email`. -/
def resendOTPSave (s : Store) (email code : String) (now : Nat) :
    Except ApiError Store :=
  match findUser s.users (strLower email) with
  | none => .ok s
  | some user =>
    if user.is_email_verified then
      .error (.validation "Email address is already verified.")
    else
      let p := EmailVerificationOTP.create_for_user s user.id code now
      .ok { p.1 with notifications := p.1.notifications ++ [.send_otp_email user.id p.2.code] }

/-- Embeds `PasswordResetRequestSerializer.save` (`serializers.py:211-227`): missing
user is a silent no-op success; otherwise create a reset token and enqueue
`send_password_reset_email`.  No already-verified guard. -/
def passwordResetRequestSave (s : Store) (email token : String) (now : Nat) :
    Except ApiError Store :=
  match findUser s.users (strLower email) with
  | none => .ok s
  | some user =>
    let p := PasswordResetToken.create_for_user s user.id token now
    .ok { p.1 with notifications := p.1.notifications ++ [.send_password_reset_email user.id p.2.code] }

/-- Embeds `PasswordResetOTPRequestSerializer.save` (`serializers.py:327-352`):
missing user is a silent no-op success; otherwise create a reset OTP (which
invalidates the user's outstanding ones) and enqueue
`send_password_reset_otp_email`.  No already-verified guard. -/
def passwordResetOTPRequestSave (s : Store) (email code : String) (now : Nat) :
    Except ApiError Store :=
  match findUser s.users (strLower email) with
  | none => .ok s
  | some user =>
    let p := PasswordResetOTP.create_for_user s user.id code now
    .ok { p.1 with notifications := p.1.notifications ++ [.send_password_reset_otp_email user.id p.2.code] }

/-- Embeds `ResendOTPView.post` (`views.py:148-163`): run the serializer's `save` and
answer with one fixed success message, whatever branch `save` took. -/
def resendOTPViewPost (s : Store) (email code : String) (now : Nat) :
    Except ApiError (Store × String) :=
  match resendOTPSave s email code now with
  | .error e => .error e
  | .ok s1 => .ok (s1, "Verification code sent to your email.")

/-- Modelled from the spec: `PasswordResetRequestView` is imported by
`config/api_router.py` but its body is not under `src/`; per spec §4.3 step 2
the issuance endpoint returns the identical success response for the
found-user and missing-user paths, so it answers with one fixed message on
serializer success. -/
def passwordResetRequestViewPost (s : Store) (email token : String) (now : Nat) :
    Except ApiError (Store × String) :=
  match passwordResetRequestSave s email token now with
  | .error e => .error e
  | .ok s1 => .ok (s1, "Password reset email sent.")

/-- Modelled from the spec: `PasswordResetOTPRequestView` is imported by
`config/api_router.py` but its body is not under `src/`; per spec §4.3 step 2
it returns the identical fixed success response on serializer success. -/
def passwordResetOTPRequestViewPost (s : Store) (email code : String) (now : Nat) :
    Except ApiError (Store × String) :=
  match passwordResetOTPRequestSave s email code now with
  | .error e => .error e
  | .ok s1 => .ok (s1, "Password reset code sent to your email.")

/-! ## All store-mutating operations of the subsystem, as one step type

Every code path of the subsystem that writes the record store appears here:
the three `create_for_user`, the three `mark_as_used`, and the five
endpoint flows.  `applyOp` gives the store each operation leaves behind
(an operation that fails leaves the store as it found it). -/

/-- One operation of the verification subsystem. -/
inductive Op where
  | emailCreate (user_id : Nat) (code : String) (now : Nat)
  | prOtpCreate (user_id : Nat) (code : String) (now : Nat)
  | prTokenCreate (user_id : Nat) (token : String) (now : Nat)
  | emailMarkUsed (id : Nat)
  | prOtpMarkUsed (id : Nat)
  | prTokenMarkUsed (id : Nat)
  | otpVerify (email code : String) (now : Nat)
  | resendOtp (email code : String) (now : Nat)
  | prRequest (email token : String) (now : Nat)
  | prOtpRequest (email code : String) (now : Nat)
  | prTokenConfirm (token password : String) (now : Nat)
  | prOtpConfirm (email code password : String) (now : Nat)

/-- The store an operation leaves behind (unchanged when the operation
errors). -/
def applyOp (pwCheck : String → Option String) (op : Op) (s : Store) : Store :=
  match op with
  | .emailCreate uid code now => (EmailVerificationOTP.create_for_user s uid code now).1
  | .prOtpCreate uid code now => (PasswordResetOTP.create_for_user s uid code now).1
  | .prTokenCreate uid tok now => (PasswordResetToken.create_for_user s uid tok now).1
  | .emailMarkUsed id => EmailVerificationOTP.mark_as_used s id
  | .prOtpMarkUsed id => PasswordResetOTP.mark_as_used s id
  | .prTokenMarkUsed id => PasswordResetToken.mark_as_used s id
  | .otpVerify email code now =>
    match otpVerificationConfirm s email code now with
    | .ok p => p.1
    | .error _ => s
  | .resendOtp email code now =>
    match resendOTPSave s email code now with
    | .ok s1 => s1
    | .error _ => s
  | .prRequest email tok now =>
    match passwordResetRequestSave s email tok now with
    | .ok s1 => s1
    | .error _ => s
  | .prOtpRequest email code now =>
    match passwordResetOTPRequestSave s email code now with
    | .ok s1 => s1
    | .error _ => s
  | .prTokenConfirm tok pw now =>
    match passwordResetConfirm pwCheck s tok pw now with
    | .ok p => p.1
    | .error _ => s
  | .prOtpConfirm email code pw now =>
    match passwordResetOTPConfirm pwCheck s email code pw now with
    | .ok p => p.1
    | .error _ => s

/-! ## Interleaved confirmation (two racing requests)

Each request is its validate phase (one atomic read) followed by its apply
phase (one atomic write); two requests may interleave against the shared
store.  `otpVerifyRace` is the schedule in which both requests run their
validate phase against the same pre-state before either runs its apply
phase — the schedule the spec's confirmation-race requirement is about. -/

/-- Two `POST /auth/verify-otp/` requests with the same payload, interleaved
as A.validate; B.validate; A.apply; B.apply.  Returns both responses and the
final store. -/
def otpVerifyRace (s : Store) (email code : String) (now : Nat) :
    (Except ApiError String × Except ApiError String) × Store :=
  match otpVerifyValidate s email code now with
  | .error e => ((.error e, .error e), s)
  | .ok (u1, o1) =>
    match otpVerifyValidate s email code now with
    | .error e =>
      ((.ok "Email verified successfully.", .error e), otpVerifyApply s u1 o1)
    | .ok (u2, o2) =>
      ((.ok "Email verified successfully.", .ok "Email verified successfully."),
        otpVerifyApply (otpVerifyApply s u1 o1) u2 o2)

/-! ## Helper lemmas -/

/-- An empty queryset is exactly an empty match list. -/
theorem latestFirst_eq_none : ∀ {l : List OTPRecord}, latestFirst l = none → l = [] := by
  intro l h
  cases l with
  | nil => rfl
  | cons r t =>
    rw [latestFirst] at h
    split at h <;> (try split at h) <;> simp_all

/-- The selected candidate is one of the matches. -/
theorem latestFirst_mem : ∀ {l : List OTPRecord} {o : OTPRecord},
    latestFirst l = some o → o ∈ l := by
  intro l
  induction l with
  | nil => intro o h; cases h
  | cons r t ih =>
    intro o h
    rw [latestFirst] at h
    split at h
    · injection h with h; subst h
      exact List.mem_cons_self _ _
    · rename_i b hb
      split at h
      · injection h with h; subst h
        exact List.mem_cons_of_mem _ (ih hb)
      · injection h with h; subst h
        exact List.mem_cons_self _ _

/-- The selected candidate has maximal creation time among the matches. -/
theorem latestFirst_isMax : ∀ {l : List OTPRecord} {o : OTPRecord},
    latestFirst l = some o → ∀ r ∈ l, r.created ≤ o.created := by
  intro l
  induction l with
  | nil => intro o h; cases h
  | cons r t ih =>
    intro o h
    rw [latestFirst] at h
    split at h
    · rename_i hb
      injection h with h; subst h
      intro x hx
      rcases List.mem_cons.mp hx with rfl | hx
      · exact le_refl _
      · rw [latestFirst_eq_none hb] at hx; cases hx
    · rename_i b hb
      split at h
      · rename_i hc
        injection h with h; subst h
        intro x hx
        rcases List.mem_cons.mp hx with rfl | hx
        · omega
        · exact ih hb x hx
      · rename_i hc
        injection h with h; subst h
        intro x hx
        rcases List.mem_cons.mp hx with rfl | hx
        · exact le_refl _
        · have := ih hb x hx; omega

/-- A nonempty queryset yields a candidate. -/
theorem latestFirst_of_ne_nil {l : List OTPRecord} (h : l ≠ []) :
    ∃ o, latestFirst l = some o := by
  cases hl : latestFirst l with
  | none => exact absurd (latestFirst_eq_none hl) h
  | some o => exact ⟨o, rfl⟩

/-- Monotonicity of the used flag between two store snapshots of one
collection: every used row survives, with its id, still used. -/
@[reducible] def usedMono (l l' : List OTPRecord) : Prop :=
  ∀ r ∈ l, r.is_used = true → ∃ r' ∈ l', r'.id = r.id ∧ r'.is_used = true

theorem usedMono_refl (l : List OTPRecord) : usedMono l l :=
  fun r hr hu => ⟨r, hr, rfl, hu⟩

theorem usedMono_append (l m : List OTPRecord) : usedMono l (l ++ m) :=
  fun r hr hu => ⟨r, List.mem_append_left m hr, rfl, hu⟩

theorem usedMono_map (l : List OTPRecord) (f : OTPRecord → OTPRecord)
    (hid : ∀ r, (f r).id = r.id)
    (hu : ∀ r, r.is_used = true → (f r).is_used = true) :
    usedMono l (l.map f) :=
  fun r hr h => ⟨f r, List.mem_map_of_mem f hr, hid r, hu r h⟩

theorem usedMono_trans {l m n : List OTPRecord}
    (h1 : usedMono l m) (h2 : usedMono m n) : usedMono l n := by
  intro r hr hu
  obtain ⟨r', hm, hid, hu'⟩ := h1 r hr hu
  obtain ⟨r'', hn, hid', hu''⟩ := h2 r' hm hu'
  exact ⟨r'', hn, hid'.trans hid, hu''⟩

/-- The row write of `mark_as_used` keeps ids and never clears the flag. -/
theorem usedMono_markMap (l : List OTPRecord) (id : Nat) :
    usedMono l (l.map fun r => if r.id = id then { r with is_used := true } else r) := by
  apply usedMono_map
  · intro r; dsimp only; split <;> rfl
  · intro r h; dsimp only; split
    · rfl
    · exact h

/-- The bulk invalidation write of `PasswordResetOTP.create_for_user` keeps
ids and never clears the flag. -/
theorem usedMono_invalidateMap (l : List OTPRecord) (uid : Nat) :
    usedMono l (l.map fun r =>
      if r.user_id = uid && !r.is_used then { r with is_used := true } else r) := by
  apply usedMono_map
  · intro r; dsimp only; split <;> rfl
  · intro r h; dsimp only; split
    · rfl
    · exact h

/-- In the row-write image of `mark_as_used`, every row carrying the written
id is used. -/
theorem mem_markMap_id {l : List OTPRecord} {id : Nat} {r : OTPRecord}
    (hr : r ∈ l.map (fun x => if x.id = id then { x with is_used := true } else x))
    (hid : r.id = id) : r.is_used = true := by
  rcases List.mem_map.mp hr with ⟨x, _, rfl⟩
  by_cases h : x.id = id
  · simp [h]
  · simp only [if_neg h] at hid ⊢
    exact absurd hid h

/-- In the image of the verified-flag write of `OTPVerificationView.post`,
every row carrying the written user id is verified. -/
theorem mem_verifyMap_id {l : List User} {uid : Nat} {u : User}
    (hu : u ∈ l.map (fun x => if x.id = uid then { x with is_email_verified := true } else x))
    (hid : u.id = uid) : u.is_email_verified = true := by
  rcases List.mem_map.mp hu with ⟨x, _, rfl⟩
  by_cases h : x.id = uid
  · simp [h]
  · simp only [if_neg h] at hid ⊢
    exact absurd hid h

/-! ## Concrete fixtures for counterexamples and witnesses -/

/-- A single unverified user. -/
def u0 : User := { id := 0, email := "u@example.com", is_email_verified := false, password := "old" }

/-- Store with one valid email-verification OTP for `u0` (expires at 910). -/
def csRace : Store :=
  { users := [u0],
    emailOtps := [{ id := 1, user_id := 0, code := "123456", created := 10,
                    expires_at := 910, is_used := false }],
    passwordResetOtps := [], passwordResetTokens := [], notifications := [],
    next_id := 2 }

/-- Store with one expired (but unused) email-verification OTP for `u0`. -/
def csExpired : Store :=
  { users := [u0],
    emailOtps := [{ id := 1, user_id := 0, code := "123456", created := 10,
                    expires_at := 50, is_used := false }],
    passwordResetOtps := [], passwordResetTokens := [], notifications := [],
    next_id := 2 }

/-- Store with the user but no verification record at all. -/
def csNoRecord : Store :=
  { users := [u0], emailOtps := [], passwordResetOtps := [],
    passwordResetTokens := [], notifications := [], next_id := 1 }

/-- Store with no users at all. -/
def csEmpty : Store :=
  { users := [], emailOtps := [], passwordResetOtps := [],
    passwordResetTokens := [], notifications := [], next_id := 0 }

/-- Store with two unused password-reset OTP rows that both match
`(user 0, code "111111")` — duplicate candidates for the `objects.get`
lookup. -/
def csDup : Store :=
  { users := [u0],
    emailOtps := [],
    passwordResetOtps :=
      [{ id := 1, user_id := 0, code := "111111", created := 10,
         expires_at := 2000, is_used := false },
       { id := 2, user_id := 0, code := "111111", created := 20,
         expires_at := 2000, is_used := false }],
    passwordResetTokens := [], notifications := [], next_id := 3 }

/-- Store holding one unused email OTP, one used password-reset OTP and one
used reset token. -/
def csMix : Store :=
  { users := [u0],
    emailOtps := [{ id := 1, user_id := 0, code := "123456", created := 10,
                    expires_at := 910, is_used := false }],
    passwordResetOtps := [{ id := 2, user_id := 0, code := "654321", created := 10,
                            expires_at := 910, is_used := true }],
    passwordResetTokens := [{ id := 3, user_id := 0, code := "tok", created := 10,
                              expires_at := 3610, is_used := true }],
    notifications := [], next_id := 4 }

/-- Store whose only email OTP matching the submitted code is already
used. -/
def csUsed : Store :=
  { users := [u0],
    emailOtps := [{ id := 1, user_id := 0, code := "123456", created := 10,
                    expires_at := 910, is_used := true }],
    passwordResetOtps := [], passwordResetTokens := [], notifications := [],
    next_id := 2 }

/-- Store with one expired (but unused) password-reset token. -/
def csTokExp : Store :=
  { users := [u0], emailOtps := [], passwordResetOtps := [],
    passwordResetTokens := [{ id := 1, user_id := 0, code := "tok", created := 10,
                              expires_at := 50, is_used := false }],
    notifications := [], next_id := 2 }

/-- Store with two unused email OTP rows matching the same `(user, code)`,
created at 10 and 20. -/
def csDupEmail : Store :=
  { users := [u0],
    emailOtps :=
      [{ id := 1, user_id := 0, code := "123456", created := 10,
         expires_at := 2000, is_used := false },
       { id := 2, user_id := 0, code := "123456", created := 20,
         expires_at := 2000, is_used := false }],
    passwordResetOtps := [], passwordResetTokens := [], notifications := [],
    next_id := 3 }

/-- Store with a verified user who still owns a valid email OTP. -/
def csVerifiedUser : Store :=
  { users := [{ id := 0, email := "u@example.com", is_email_verified := true,
                password := "old" }],
    emailOtps := [{ id := 1, user_id := 0, code := "123456", created := 10,
                    expires_at := 910, is_used := false }],
    passwordResetOtps := [], passwordResetTokens := [], notifications := [],
    next_id := 2 }

/-! ## Claim theorems -/

/-- Validity as the specification words it: a record is valid iff
`is_used == false` and `expires_at > now` (a pure derived predicate). -/
def specIsValid (is_used : Bool) (expires_at now : Nat) : Bool :=
  !is_used && decide (expires_at > now)

/-- **C7.** For every verification record (all three purposes) and every time
`now`, `is_valid()` returns true iff `is_used == false` and
`expires_at > now`.  The embedded `is_valid` functions take only the record
and the clock and return a `Bool` — no store in, no store out — so calling
them changes no state. -/
theorem is_valid_iff_unused_and_unexpired (r : OTPRecord) (now : Nat) :
    (EmailVerificationOTP.is_valid r now = specIsValid r.is_used r.expires_at now) ∧
    (PasswordResetOTP.is_valid r now = specIsValid r.is_used r.expires_at now) ∧
    (PasswordResetToken.is_valid r now = specIsValid r.is_used r.expires_at now) ∧
    (EmailVerificationOTP.is_valid r now = true ↔ (r.is_used = false ∧ now < r.expires_at)) := by
  refine ⟨rfl, rfl, rfl, ?_⟩
  simp [EmailVerificationOTP.is_valid]

/-- **C9.** `EmailVerificationOTP.create_for_user` leaves every previously
existing email-verification OTP row unchanged — each is still present as the
same row value, so in particular an unused one stays unused — and the new row
is unused and valid at issuance time, so several email-verification OTPs for
one user can be simultaneously valid. -/
theorem emailOTP_create_preserves_existing (s : Store) (uid : Nat) (code : String) (now : Nat) :
    (∀ r ∈ s.emailOtps, r ∈ (EmailVerificationOTP.create_for_user s uid code now).1.emailOtps) ∧
    ((EmailVerificationOTP.create_for_user s uid code now).1.passwordResetOtps
      = s.passwordResetOtps) ∧
    ((EmailVerificationOTP.create_for_user s uid code now).2.is_used = false) ∧
    ((EmailVerificationOTP.create_for_user s uid code now).2 ∈
      (EmailVerificationOTP.create_for_user s uid code now).1.emailOtps) ∧
    (EmailVerificationOTP.is_valid (EmailVerificationOTP.create_for_user s uid code now).2 now
      = true) := by
  refine ⟨?_, rfl, rfl, ?_, ?_⟩
  · intro r hr
    simp only [EmailVerificationOTP.create_for_user]
    exact List.mem_append_left _ hr
  · simp [EmailVerificationOTP.create_for_user]
  · simp [EmailVerificationOTP.create_for_user, EmailVerificationOTP.is_valid]

/-- Witness for C9 at a concrete store: the pre-existing OTP row survives a
second issuance for the same user untouched. -/
theorem emailOTP_create_preserves_existing_witness :
    ({ id := 1, user_id := 0, code := "123456", created := 10, expires_at := 910,
       is_used := false } : OTPRecord) ∈
      (EmailVerificationOTP.create_for_user csRace 0 "999999" 100).1.emailOtps :=
  (emailOTP_create_preserves_existing csRace 0 "999999" 100).1 _ (by decide)

/-- **C1.** After `PasswordResetOTP.create_for_user`, the freshly created row
is unused and present; every password-reset OTP row of that user that existed
before the call survives (same id, same user) marked used; and any unused
password-reset OTP row of that user in the resulting store is the new row —
at most one outstanding unused password-reset OTP per user immediately after
issuance. -/
theorem passwordResetOTP_create_invalidates_previous
    (s : Store) (uid : Nat) (code : String) (now : Nat) :
    ((PasswordResetOTP.create_for_user s uid code now).2.is_used = false) ∧
    ((PasswordResetOTP.create_for_user s uid code now).2 ∈
      (PasswordResetOTP.create_for_user s uid code now).1.passwordResetOtps) ∧
    (∀ r ∈ s.passwordResetOtps, r.user_id = uid →
      ∃ r' ∈ (PasswordResetOTP.create_for_user s uid code now).1.passwordResetOtps,
        r'.id = r.id ∧ r'.user_id = uid ∧ r'.is_used = true) ∧
    (∀ r ∈ (PasswordResetOTP.create_for_user s uid code now).1.passwordResetOtps,
      r.user_id = uid → r.is_used = false →
      r = (PasswordResetOTP.create_for_user s uid code now).2) := by
  simp only [PasswordResetOTP.create_for_user]
  refine ⟨by trivial, ?_, ?_, ?_⟩
  · exact List.mem_append_right _ (List.mem_singleton.mpr rfl)
  · intro r hr huid
    refine ⟨if r.user_id = uid && !r.is_used then { r with is_used := true } else r,
      List.mem_append_left _ (List.mem_map_of_mem _ hr), ?_, ?_, ?_⟩
    · split <;> rfl
    · split <;> exact huid
    · by_cases hu : r.is_used
      · simp [huid, hu]
      · simp [huid, hu]
  · intro r hr huid hunused
    rcases List.mem_append.mp hr with hmem | hmem
    · exfalso
      rcases List.mem_map.mp hmem with ⟨x, hx, rfl⟩
      by_cases hc : (x.user_id = uid && !x.is_used) = true
      · rw [if_pos hc] at hunused
        simp at hunused
      · rw [if_neg hc] at huid hunused
        simp [huid, hunused] at hc
    · exact List.mem_singleton.mp hmem

/-- Witness for C1 at a concrete store with two outstanding unused reset
OTPs: the new row is unused and the old row with id 1 survives marked used. -/
theorem passwordResetOTP_create_invalidates_previous_witness :
    ((PasswordResetOTP.create_for_user csDup 0 "222222" 100).2.is_used = false) ∧
    (∃ r' ∈ (PasswordResetOTP.create_for_user csDup 0 "222222" 100).1.passwordResetOtps,
      r'.id = 1 ∧ r'.user_id = 0 ∧ r'.is_used = true) := by
  refine ⟨(passwordResetOTP_create_invalidates_previous csDup 0 "222222" 100).1, ?_⟩
  have h := (passwordResetOTP_create_invalidates_previous csDup 0 "222222" 100).2.2.1
    { id := 1, user_id := 0, code := "111111", created := 10, expires_at := 2000,
      is_used := false } (by decide) rfl
  simpa using h

/-- A successful `verify-otp` request leaves exactly the apply-phase store. -/
theorem otpVerificationConfirm_ok {s s' : Store} {email code msg : String} {now : Nat}
    (h : otpVerificationConfirm s email code now = .ok (s', msg)) :
    ∃ uid oid, s' = otpVerifyApply s uid oid := by
  cases hv : otpVerifyValidate s email code now with
  | error e => simp [otpVerificationConfirm, hv] at h
  | ok p =>
    obtain ⟨uid, oid⟩ := p
    simp [otpVerificationConfirm, hv] at h
    exact ⟨uid, oid, h.1.symm⟩

/-- A successful OTP password-reset confirmation leaves exactly the
apply-phase store. -/
theorem passwordResetOTPConfirm_ok {pwCheck : String → Option String} {s s' : Store}
    {email code pw : String} {now : Nat} {u : Nat}
    (h : passwordResetOTPConfirm pwCheck s email code pw now = .ok (s', u)) :
    ∃ uid oid, s' = prOtpConfirmApply s uid oid pw := by
  cases hv : prOtpConfirmValidate pwCheck s email code pw now with
  | error e => simp [passwordResetOTPConfirm, hv] at h
  | ok p =>
    obtain ⟨uid, oid⟩ := p
    simp [passwordResetOTPConfirm, hv] at h
    exact ⟨uid, oid, h.1.symm⟩

/-- A successful token password-reset confirmation leaves exactly the
apply-phase store. -/
theorem passwordResetConfirm_ok {pwCheck : String → Option String} {s s' : Store}
    {tok pw : String} {now : Nat} {u : Nat}
    (h : passwordResetConfirm pwCheck s tok pw now = .ok (s', u)) :
    ∃ uid tid, s' = prTokenConfirmApply s uid tid pw := by
  cases hv : prTokenConfirmValidate pwCheck s tok pw now with
  | error e => simp [passwordResetConfirm, hv] at h
  | ok p =>
    obtain ⟨uid, tid⟩ := p
    simp [passwordResetConfirm, hv] at h
    exact ⟨uid, tid, h.1.symm⟩

/-- Record-collection shape of a successful `resend-otp` save. -/
theorem resendOTPSave_lists {s s1 : Store} {email code : String} {now : Nat}
    (h : resendOTPSave s email code now = .ok s1) :
    (s1.emailOtps = s.emailOtps ∨ ∃ r, s1.emailOtps = s.emailOtps ++ [r]) ∧
    s1.passwordResetOtps = s.passwordResetOtps ∧
    s1.passwordResetTokens = s.passwordResetTokens := by
  cases hu : findUser s.users (strLower email) with
  | none =>
    simp [resendOTPSave, hu] at h
    subst h
    exact ⟨.inl rfl, rfl, rfl⟩
  | some user =>
    by_cases hv : user.is_email_verified = true
    · simp [resendOTPSave, hu, hv] at h
    · simp [resendOTPSave, hu, hv] at h
      subst h
      exact ⟨.inr ⟨_, rfl⟩, rfl, rfl⟩

/-- Record-collection shape of a successful password-reset (token) request
save. -/
theorem passwordResetRequestSave_lists {s s1 : Store} {email tok : String} {now : Nat}
    (h : passwordResetRequestSave s email tok now = .ok s1) :
    (s1.passwordResetTokens = s.passwordResetTokens ∨
      ∃ r, s1.passwordResetTokens = s.passwordResetTokens ++ [r]) ∧
    s1.emailOtps = s.emailOtps ∧
    s1.passwordResetOtps = s.passwordResetOtps := by
  cases hu : findUser s.users (strLower email) with
  | none =>
    simp [passwordResetRequestSave, hu] at h
    subst h
    exact ⟨.inl rfl, rfl, rfl⟩
  | some user =>
    simp [passwordResetRequestSave, hu] at h
    subst h
    exact ⟨.inr ⟨_, rfl⟩, rfl, rfl⟩

/-- Record-collection shape of a successful password-reset (OTP) request
save. -/
theorem passwordResetOTPRequestSave_lists {s s1 : Store} {email code : String} {now : Nat}
    (h : passwordResetOTPRequestSave s email code now = .ok s1) :
    (s1.passwordResetOtps = s.passwordResetOtps ∨
      ∃ uid r, s1.passwordResetOtps =
        (s.passwordResetOtps.map fun x =>
          if x.user_id = uid && !x.is_used then { x with is_used := true } else x) ++ [r]) ∧
    s1.emailOtps = s.emailOtps ∧
    s1.passwordResetTokens = s.passwordResetTokens := by
  cases hu : findUser s.users (strLower email) with
  | none =>
    simp [passwordResetOTPRequestSave, hu] at h
    subst h
    exact ⟨.inl rfl, rfl, rfl⟩
  | some user =>
    simp [passwordResetOTPRequestSave, hu] at h
    subst h
    exact ⟨.inr ⟨user.id, _, rfl⟩, rfl, rfl⟩

/-- No operation of the subsystem ever clears a used flag: across every
operation, each collection is used-monotone. -/
theorem applyOp_usedMono (pwCheck : String → Option String) (op : Op) (s : Store) :
    usedMono s.emailOtps (applyOp pwCheck op s).emailOtps ∧
    usedMono s.passwordResetOtps (applyOp pwCheck op s).passwordResetOtps ∧
    usedMono s.passwordResetTokens (applyOp pwCheck op s).passwordResetTokens := by
  cases op with
  | emailCreate uid code now =>
    exact ⟨usedMono_append _ _, usedMono_refl _, usedMono_refl _⟩
  | prOtpCreate uid code now =>
    exact ⟨usedMono_refl _,
      usedMono_trans (usedMono_invalidateMap _ _) (usedMono_append _ _),
      usedMono_refl _⟩
  | prTokenCreate uid tok now =>
    exact ⟨usedMono_refl _, usedMono_refl _, usedMono_append _ _⟩
  | emailMarkUsed id =>
    exact ⟨usedMono_markMap _ _, usedMono_refl _, usedMono_refl _⟩
  | prOtpMarkUsed id =>
    exact ⟨usedMono_refl _, usedMono_markMap _ _, usedMono_refl _⟩
  | prTokenMarkUsed id =>
    exact ⟨usedMono_refl _, usedMono_refl _, usedMono_markMap _ _⟩
  | otpVerify email code now =>
    cases hc : otpVerificationConfirm s email code now with
    | error e =>
      simp only [applyOp, hc]
      exact ⟨usedMono_refl _, usedMono_refl _, usedMono_refl _⟩
    | ok p =>
      obtain ⟨s', msg⟩ := p
      obtain ⟨uid, oid, rfl⟩ := otpVerificationConfirm_ok hc
      simp only [applyOp, hc]
      exact ⟨usedMono_markMap _ _, usedMono_refl _, usedMono_refl _⟩
  | resendOtp email code now =>
    cases hc : resendOTPSave s email code now with
    | error e =>
      simp only [applyOp, hc]
      exact ⟨usedMono_refl _, usedMono_refl _, usedMono_refl _⟩
    | ok s1 =>
      obtain ⟨hemail, hpr, htok⟩ := resendOTPSave_lists hc
      simp only [applyOp, hc]
      refine ⟨?_, hpr ▸ usedMono_refl _, htok ▸ usedMono_refl _⟩
      rcases hemail with h | ⟨r, h⟩
      · exact h ▸ usedMono_refl _
      · exact h ▸ usedMono_append _ _
  | prRequest email tok now =>
    cases hc : passwordResetRequestSave s email tok now with
    | error e =>
      simp only [applyOp, hc]
      exact ⟨usedMono_refl _, usedMono_refl _, usedMono_refl _⟩
    | ok s1 =>
      obtain ⟨htok, hemail, hpr⟩ := passwordResetRequestSave_lists hc
      simp only [applyOp, hc]
      refine ⟨hemail ▸ usedMono_refl _, hpr ▸ usedMono_refl _, ?_⟩
      rcases htok with h | ⟨r, h⟩
      · exact h ▸ usedMono_refl _
      · exact h ▸ usedMono_append _ _
  | prOtpRequest email code now =>
    cases hc : passwordResetOTPRequestSave s email code now with
    | error e =>
      simp only [applyOp, hc]
      exact ⟨usedMono_refl _, usedMono_refl _, usedMono_refl _⟩
    | ok s1 =>
      obtain ⟨hpr, hemail, htok⟩ := passwordResetOTPRequestSave_lists hc
      simp only [applyOp, hc]
      refine ⟨hemail ▸ usedMono_refl _, ?_, htok ▸ usedMono_refl _⟩
      rcases hpr with h | ⟨uid, r, h⟩
      · exact h ▸ usedMono_refl _
      · exact h ▸ usedMono_trans (usedMono_invalidateMap _ _) (usedMono_append _ _)
  | prTokenConfirm tok pw now =>
    cases hc : passwordResetConfirm pwCheck s tok pw now with
    | error e =>
      simp only [applyOp, hc]
      exact ⟨usedMono_refl _, usedMono_refl _, usedMono_refl _⟩
    | ok p =>
      obtain ⟨s', u⟩ := p
      obtain ⟨uid, tid, rfl⟩ := passwordResetConfirm_ok hc
      simp only [applyOp, hc]
      exact ⟨usedMono_refl _, usedMono_refl _, usedMono_markMap _ _⟩
  | prOtpConfirm email code pw now =>
    cases hc : passwordResetOTPConfirm pwCheck s email code pw now with
    | error e =>
      simp only [applyOp, hc]
      exact ⟨usedMono_refl _, usedMono_refl _, usedMono_refl _⟩
    | ok p =>
      obtain ⟨s', u⟩ := p
      obtain ⟨uid, oid, rfl⟩ := passwordResetOTPConfirm_ok hc
      simp only [applyOp, hc]
      exact ⟨usedMono_refl _, usedMono_markMap _ _, usedMono_refl _⟩

/-- **C8.** The used flag is monotone and fatal to validity: after
`mark_as_used` on any of the three collections, every row carrying that id
fails `is_valid()` at every time `now`, whatever its `expires_at`; and no
operation of the subsystem (`Op` enumerates them all) ever takes a used row
back to unused — each collection is used-monotone under every operation. -/
theorem used_is_forever (pwCheck : String → Option String) (op : Op) (s : Store)
    (id now : Nat) :
    (∀ r ∈ (EmailVerificationOTP.mark_as_used s id).emailOtps, r.id = id →
      EmailVerificationOTP.is_valid r now = false) ∧
    (∀ r ∈ (PasswordResetOTP.mark_as_used s id).passwordResetOtps, r.id = id →
      PasswordResetOTP.is_valid r now = false) ∧
    (∀ r ∈ (PasswordResetToken.mark_as_used s id).passwordResetTokens, r.id = id →
      PasswordResetToken.is_valid r now = false) ∧
    usedMono s.emailOtps (applyOp pwCheck op s).emailOtps ∧
    usedMono s.passwordResetOtps (applyOp pwCheck op s).passwordResetOtps ∧
    usedMono s.passwordResetTokens (applyOp pwCheck op s).passwordResetTokens := by
  refine ⟨?_, ?_, ?_, (applyOp_usedMono pwCheck op s).1,
    (applyOp_usedMono pwCheck op s).2.1, (applyOp_usedMono pwCheck op s).2.2⟩
  · intro r hr hid
    have := mem_markMap_id hr hid
    simp [EmailVerificationOTP.is_valid, this]
  · intro r hr hid
    have := mem_markMap_id hr hid
    simp [PasswordResetOTP.is_valid, this]
  · intro r hr hid
    have := mem_markMap_id hr hid
    simp [PasswordResetToken.is_valid, this]

/-- Witness for C8 at a concrete store: the freshly marked email OTP row is
invalid even though unexpired, and the already-used reset OTP row survives a
new issuance still used. -/
theorem used_is_forever_witness :
    (EmailVerificationOTP.is_valid
      { id := 1, user_id := 0, code := "123456", created := 10, expires_at := 910,
        is_used := true } 100 = false) ∧
    (∃ r' ∈ (applyOp (fun _ => none) (.prOtpCreate 0 "999999" 50) csMix).passwordResetOtps,
      r'.id = 2 ∧ r'.is_used = true) := by
  constructor
  · exact (used_is_forever (fun _ => none) (.emailMarkUsed 1) csMix 1 100).1
      { id := 1, user_id := 0, code := "123456", created := 10, expires_at := 910,
        is_used := true } (by decide) (by decide)
  · have h := (used_is_forever (fun _ => none) (.prOtpCreate 0 "999999" 50) csMix 1 100).2.2.2.2.1
      { id := 2, user_id := 0, code := "654321", created := 10, expires_at := 910,
        is_used := true } (by decide) (by decide)
    simpa using h

/-- **C3 (code-bug exhibit).** Two interleaved confirmations holding the same
valid secret do NOT resolve to one success and one `Invalid`: because
`mark_as_used()` is an unconditional row save with no `is_used = false` guard
and no affected-row-count check, the schedule in which both requests validate
before either writes returns success to both.  Sequentially the second
request does fail (second conjunct), so the loss of single-use is exactly a
race, as the spec's conditional-update requirement anticipates. -/
theorem otp_confirm_race_both_succeed :
    ((otpVerifyRace csRace "u@example.com" "123456" 100).1 =
      (.ok "Email verified successfully.", .ok "Email verified successfully.")) ∧
    (otpVerificationConfirm
      (applyOp (fun _ => none) (.otpVerify "u@example.com" "123456" 100) csRace)
      "u@example.com" "123456" 100 =
      .error (.validation "Invalid email or verification code.")) := by
  exact ⟨rfl, rfl⟩

/-- **C10.** Email-verification confirmation applies no already-verified
guard: even when the looked-up user already has `is_email_verified = true`,
a valid OTP still confirms successfully, the flag is (re)set to true, and the
OTP is consumed. -/
theorem otp_confirm_no_already_verified_guard (s : Store) (email code : String)
    (now : Nat) (u : User) (otp : OTPRecord)
    (hu : findUser s.users (strLower email) = some u)
    (hver : u.is_email_verified = true)
    (ho : latestFirst (s.emailOtps.filter fun r =>
        r.user_id = u.id && r.code = code && !r.is_used) = some otp)
    (hval : EmailVerificationOTP.is_valid otp now = true) :
    ∃ s', otpVerificationConfirm s email code now =
        .ok (s', "Email verified successfully.") ∧
      (∀ w ∈ s'.users, w.id = u.id → w.is_email_verified = true) ∧
      (∀ r ∈ s'.emailOtps, r.id = otp.id → r.is_used = true) := by
  refine ⟨otpVerifyApply s u.id otp.id, ?_, ?_, ?_⟩
  · simp [otpVerificationConfirm, otpVerifyValidate, hu, ho, hval]
  · intro w hw hid
    exact mem_verifyMap_id hw hid
  · intro r hr hid
    exact mem_markMap_id hr hid

/-- Witness for C10: a user whose email is already verified confirms again
with a valid OTP and the request succeeds. -/
theorem otp_confirm_no_already_verified_guard_witness :
    ∃ s', otpVerificationConfirm csVerifiedUser "u@example.com" "123456" 100 =
        .ok (s', "Email verified successfully.") ∧
      (∀ w ∈ s'.users, w.id = 0 → w.is_email_verified = true) ∧
      (∀ r ∈ s'.emailOtps, r.id = 1 → r.is_used = true) := by
  have h := otp_confirm_no_already_verified_guard csVerifiedUser "u@example.com" "123456"
    100
    { id := 0, email := "u@example.com", is_email_verified := true, password := "old" }
    { id := 1, user_id := 0, code := "123456", created := 10, expires_at := 910,
      is_used := false }
    (by decide) rfl (by decide) (by decide)
  simpa using h

/-- **C6.** When the external password-strength check rejects the submitted
new password, both password-reset confirmations fail with the validator's
error before any state change: the store is untouched, so the verification
record keeps `is_used = false` and the user's password is unchanged. -/
theorem failed_password_check_preserves_record (pwCheck : String → Option String)
    (s : Store) (email code tok pw m : String) (now : Nat)
    (h : pwCheck pw = some m) :
    passwordResetConfirm pwCheck s tok pw now = .error (.validation m) ∧
    passwordResetOTPConfirm pwCheck s email code pw now = .error (.validation m) ∧
    applyOp pwCheck (.prTokenConfirm tok pw now) s = s ∧
    applyOp pwCheck (.prOtpConfirm email code pw now) s = s := by
  have h1 : passwordResetConfirm pwCheck s tok pw now = .error (.validation m) := by
    simp [passwordResetConfirm, prTokenConfirmValidate, h]
  have h2 : passwordResetOTPConfirm pwCheck s email code pw now = .error (.validation m) := by
    simp [passwordResetOTPConfirm, prOtpConfirmValidate, h]
  refine ⟨h1, h2, ?_, ?_⟩
  · simp [applyOp, h1]
  · simp [applyOp, h2]

/-- Witness for C6: a rejected password leaves the store (with its valid
token and OTP rows) exactly as it was. -/
theorem failed_password_check_preserves_record_witness :
    passwordResetConfirm (fun _ => some "This password is too short.") csMix "tok"
      "pw" 100 = .error (.validation "This password is too short.") ∧
    applyOp (fun _ => some "This password is too short.")
      (.prOtpConfirm "u@example.com" "654321" "pw" 100) csMix = csMix := by
  have h := failed_password_check_preserves_record
    (fun _ => some "This password is too short.") csMix "u@example.com" "654321" "tok"
    "pw" "This password is too short." 100 rfl
  exact ⟨h.1, h.2.2.2⟩

/-- **C5.** Issuance with an email matching no user is a complete no-op
success for all three issuance flows: the store (records and notifications
alike) is returned unchanged, and each endpoint answers with the same fixed
success response it gives an existing, unverified user. -/
theorem issuance_unknown_email_noop_same_response
    (s s2 : Store) (email code tok code2 tok2 : String) (now now2 : Nat) (u : User)
    (h : findUser s.users (strLower email) = none)
    (hu : findUser s2.users (strLower email) = some u)
    (hver : u.is_email_verified = false) :
    resendOTPSave s email code now = .ok s ∧
    passwordResetRequestSave s email tok now = .ok s ∧
    passwordResetOTPRequestSave s email code now = .ok s ∧
    resendOTPViewPost s email code now = .ok (s, "Verification code sent to your email.") ∧
    (∃ s', resendOTPViewPost s2 email code2 now2 =
      .ok (s', "Verification code sent to your email.")) ∧
    passwordResetRequestViewPost s email tok now = .ok (s, "Password reset email sent.") ∧
    (∃ s', passwordResetRequestViewPost s2 email tok2 now2 =
      .ok (s', "Password reset email sent.")) ∧
    passwordResetOTPRequestViewPost s email code now =
      .ok (s, "Password reset code sent to your email.") ∧
    (∃ s', passwordResetOTPRequestViewPost s2 email code2 now2 =
      .ok (s', "Password reset code sent to your email.")) := by
  have e1 : resendOTPSave s email code now = .ok s := by simp [resendOTPSave, h]
  have e2 : passwordResetRequestSave s email tok now = .ok s := by
    simp [passwordResetRequestSave, h]
  have e3 : passwordResetOTPRequestSave s email code now = .ok s := by
    simp [passwordResetOTPRequestSave, h]
  refine ⟨e1, e2, e3, ?_, ?_, ?_, ?_, ?_, ?_⟩
  · simp [resendOTPViewPost, e1]
  · cases hr : resendOTPSave s2 email code2 now2 with
    | error e => simp [resendOTPSave, hu, hver] at hr
    | ok s1 => exact ⟨s1, by simp [resendOTPViewPost, hr]⟩
  · simp [passwordResetRequestViewPost, e2]
  · cases hr : passwordResetRequestSave s2 email tok2 now2 with
    | error e => simp [passwordResetRequestSave, hu] at hr
    | ok s1 => exact ⟨s1, by simp [passwordResetRequestViewPost, hr]⟩
  · simp [passwordResetOTPRequestViewPost, e3]
  · cases hr : passwordResetOTPRequestSave s2 email code2 now2 with
    | error e => simp [passwordResetOTPRequestSave, hu] at hr
    | ok s1 => exact ⟨s1, by simp [passwordResetOTPRequestViewPost, hr]⟩

/-- Witness for C5: issuance against a store with no such user leaves the
store identical; the same endpoint on a store that does hold the (unverified)
user returns the identical success message. -/
theorem issuance_unknown_email_noop_same_response_witness :
    resendOTPSave csEmpty "u@example.com" "111111" 5 = .ok csEmpty ∧
    (∃ s', resendOTPViewPost csRace "u@example.com" "222222" 5 =
      .ok (s', "Verification code sent to your email.")) := by
  have h := issuance_unknown_email_noop_same_response csEmpty csRace "u@example.com"
    "111111" "tok" "222222" "tok2" 5 5 u0 (by decide) (by decide) rfl
  exact ⟨h.1, h.2.2.2.2.1⟩

/-- **C2 (counterexample).** An expired-but-unused matching email OTP fails
with "Verification code has expired or is invalid.", while the identical
request against a store holding no matching record fails with "Invalid email
or verification code." — so the used-or-expired case does not return the
same message as the no-match case. -/
theorem otp_confirm_error_messages_differ_cex :
    otpVerificationConfirm csExpired "u@example.com" "123456" 100 =
      .error (.validation "Verification code has expired or is invalid.") ∧
    otpVerificationConfirm csNoRecord "u@example.com" "123456" 100 =
      .error (.validation "Invalid email or verification code.") ∧
    ("Verification code has expired or is invalid." ≠
      ("Invalid email or verification code." : String)) := by
  refine ⟨rfl, rfl, by decide⟩

/-- **C2 (amended).** Error uniformity as the code implements it: a
correct-but-already-used secret is indistinguishable from a wholly invalid
one, because the lookups filter on `is_used = False` — when every matching
record is used, each flow returns exactly its no-match error (conjuncts 1-3);
and in the token flow even an expired match returns that same message
(conjunct 4).  But in the two OTP flows an expired, unused match returns a
different, expiry-specific message (conjuncts 5-6).  All of these errors are
DRF validation errors (same kind). -/
theorem confirm_used_vs_missing_error_uniformity
    (pwCheck : String → Option String) (s : Store) (email code tok pw : String)
    (now : Nat) (u : User) (t otp : OTPRecord) :
    ((findUser s.users (strLower email) = some u) →
      (∀ r ∈ s.emailOtps, r.user_id = u.id → r.code = code → r.is_used = true) →
      otpVerificationConfirm s email code now =
        .error (.validation "Invalid email or verification code.")) ∧
    (pwCheck pw = none → findUser s.users (strLower email) = some u →
      (∀ r ∈ s.passwordResetOtps, r.user_id = u.id → r.code = code → r.is_used = true) →
      passwordResetOTPConfirm pwCheck s email code pw now =
        .error (.validation "Invalid or expired OTP code.")) ∧
    (pwCheck pw = none →
      (∀ r ∈ s.passwordResetTokens, r.code = tok → r.is_used = true) →
      passwordResetConfirm pwCheck s tok pw now =
        .error (.validation "Invalid or expired password reset token.")) ∧
    (pwCheck pw = none →
      djangoGet s.passwordResetTokens (fun r => r.code = tok && !r.is_used) = .found t →
      t.expires_at ≤ now →
      passwordResetConfirm pwCheck s tok pw now =
        .error (.validation "Invalid or expired password reset token.")) ∧
    (findUser s.users (strLower email) = some u →
      latestFirst (s.emailOtps.filter fun r =>
        r.user_id = u.id && r.code = code && !r.is_used) = some otp →
      otp.expires_at ≤ now →
      otpVerificationConfirm s email code now =
        .error (.validation "Verification code has expired or is invalid.")) ∧
    (pwCheck pw = none → findUser s.users (strLower email) = some u →
      djangoGet s.passwordResetOtps (fun r =>
        r.user_id = u.id && r.code = code && !r.is_used) = .found otp →
      otp.expires_at ≤ now →
      passwordResetOTPConfirm pwCheck s email code pw now =
        .error (.validation "OTP code has expired. Please request a new one.")) := by
  refine ⟨?_, ?_, ?_, ?_, ?_, ?_⟩
  · intro hu hall
    have hf : s.emailOtps.filter (fun r =>
        r.user_id = u.id && r.code = code && !r.is_used) = [] := by
      rw [List.filter_eq_nil_iff]
      intro r hr hp
      simp only [Bool.and_eq_true, decide_eq_true_eq, Bool.not_eq_true'] at hp
      exact absurd (hall r hr hp.1.1 hp.1.2) (by simp [hp.2])
    simp [otpVerificationConfirm, otpVerifyValidate, hu, hf, latestFirst]
  · intro hpw hu hall
    have hf : s.passwordResetOtps.filter (fun r =>
        r.user_id = u.id && r.code = code && !r.is_used) = [] := by
      rw [List.filter_eq_nil_iff]
      intro r hr hp
      simp only [Bool.and_eq_true, decide_eq_true_eq, Bool.not_eq_true'] at hp
      exact absurd (hall r hr hp.1.1 hp.1.2) (by simp [hp.2])
    simp [passwordResetOTPConfirm, prOtpConfirmValidate, hpw, hu, djangoGet, hf]
  · intro hpw hall
    have hf : s.passwordResetTokens.filter (fun r => r.code = tok && !r.is_used) = [] := by
      rw [List.filter_eq_nil_iff]
      intro r hr hp
      simp only [Bool.and_eq_true, decide_eq_true_eq, Bool.not_eq_true'] at hp
      exact absurd (hall r hr hp.1) (by simp [hp.2])
    simp [passwordResetConfirm, prTokenConfirmValidate, hpw, djangoGet, hf]
  · intro hpw hget hle
    have hv : PasswordResetToken.is_valid t now = false := by
      simp [PasswordResetToken.is_valid, show ¬ (t.expires_at > now) from by omega]
    simp [passwordResetConfirm, prTokenConfirmValidate, hpw, hget, hv]
  · intro hu ho hle
    have hv : EmailVerificationOTP.is_valid otp now = false := by
      simp [EmailVerificationOTP.is_valid, show ¬ (otp.expires_at > now) from by omega]
    simp [otpVerificationConfirm, otpVerifyValidate, hu, ho, hv]
  · intro hpw hu hget hle
    have hv : PasswordResetOTP.is_valid otp now = false := by
      simp [PasswordResetOTP.is_valid, show ¬ (otp.expires_at > now) from by omega]
    simp [passwordResetOTPConfirm, prOtpConfirmValidate, hpw, hu, hget, hv]

/-- Witness for the amended C2 at concrete stores: a used email OTP produces
exactly the no-match message; an expired reset token produces the token
flow's single shared message; an expired email OTP produces the distinct
expiry message. -/
theorem confirm_used_vs_missing_error_uniformity_witness :
    (otpVerificationConfirm csUsed "u@example.com" "123456" 100 =
      .error (.validation "Invalid email or verification code.")) ∧
    (passwordResetConfirm (fun _ => none) csTokExp "tok" "Newpass1" 100 =
      .error (.validation "Invalid or expired password reset token.")) ∧
    (otpVerificationConfirm csExpired "u@example.com" "123456" 100 =
      .error (.validation "Verification code has expired or is invalid.")) := by
  refine ⟨?_, ?_, ?_⟩
  · exact (confirm_used_vs_missing_error_uniformity (fun _ => none) csUsed "u@example.com"
      "123456" "tok" "pw" 100 u0
      { id := 1, user_id := 0, code := "tok", created := 10, expires_at := 50,
        is_used := false }
      { id := 1, user_id := 0, code := "123456", created := 10, expires_at := 50,
        is_used := false }).1 (by decide) (by decide)
  · exact (confirm_used_vs_missing_error_uniformity (fun _ => none) csTokExp "u@example.com"
      "123456" "tok" "Newpass1" 100 u0
      { id := 1, user_id := 0, code := "tok", created := 10, expires_at := 50,
        is_used := false }
      { id := 1, user_id := 0, code := "123456", created := 10, expires_at := 50,
        is_used := false }).2.2.2.1 rfl (by decide) (by decide)
  · exact (confirm_used_vs_missing_error_uniformity (fun _ => none) csExpired "u@example.com"
      "123456" "tok" "pw" 100 u0
      { id := 1, user_id := 0, code := "tok", created := 10, expires_at := 50,
        is_used := false }
      { id := 1, user_id := 0, code := "123456", created := 10, expires_at := 50,
        is_used := false }).2.2.2.2.1 (by decide) (by decide) (by decide)

/-- **C4 (counterexample).** With two unused password-reset OTP rows matching
`(user, code)`, the confirmation does not pick the newest: the bare
`objects.get` raises `MultipleObjectsReturned`, an uncaught server error —
the request fails because of the duplication. -/
theorem prOtp_confirm_duplicate_rows_error_cex :
    passwordResetOTPConfirm (fun _ => none) csDup "u@example.com" "111111" "Newpass1" 100 =
      .error (.serverError "MultipleObjectsReturned") := rfl

/-- **C4 (amended).** Candidate selection as the code implements it: the
email-verification flow selects, among the rows matching
`(user, code, is_used=False)`, one of maximal creation time (newest wins),
and never fails on duplicates (a nonempty match list always yields a
candidate); the password-reset-OTP flow instead requires the match to be
unique — a single match is selected, but two or more matches crash the
request with `MultipleObjectsReturned` rather than selecting the newest. -/
theorem otp_candidate_selection_newest_and_unique_get
    (pwCheck : String → Option String) (s : Store) (email code pw : String)
    (now : Nat) (u : User) (o : OTPRecord) :
    (latestFirst (s.emailOtps.filter fun r =>
        r.user_id = u.id && r.code = code && !r.is_used) = some o →
      (o ∈ s.emailOtps.filter (fun r => r.user_id = u.id && r.code = code && !r.is_used) ∧
        ∀ r ∈ s.emailOtps.filter (fun r => r.user_id = u.id && r.code = code && !r.is_used),
          r.created ≤ o.created)) ∧
    (s.emailOtps.filter (fun r => r.user_id = u.id && r.code = code && !r.is_used) ≠ [] →
      ∃ o', latestFirst (s.emailOtps.filter fun r =>
        r.user_id = u.id && r.code = code && !r.is_used) = some o') ∧
    (s.passwordResetOtps.filter (fun r => r.user_id = u.id && r.code = code && !r.is_used)
        = [o] →
      djangoGet s.passwordResetOtps
        (fun r => r.user_id = u.id && r.code = code && !r.is_used) = .found o) ∧
    (pwCheck pw = none → findUser s.users (strLower email) = some u →
      2 ≤ (s.passwordResetOtps.filter (fun r =>
        r.user_id = u.id && r.code = code && !r.is_used)).length →
      passwordResetOTPConfirm pwCheck s email code pw now =
        .error (.serverError "MultipleObjectsReturned")) := by
  refine ⟨?_, ?_, ?_, ?_⟩
  · intro h
    exact ⟨latestFirst_mem h, latestFirst_isMax h⟩
  · intro h
    exact latestFirst_of_ne_nil h
  · intro hf
    unfold djangoGet
    rw [hf]
  · intro hpw hu hlen
    have hm : djangoGet s.passwordResetOtps
        (fun r => r.user_id = u.id && r.code = code && !r.is_used) = .multiple := by
      unfold djangoGet
      cases hfl : s.passwordResetOtps.filter
          (fun r => r.user_id = u.id && r.code = code && !r.is_used) with
      | nil => rw [hfl] at hlen; simp at hlen
      | cons a tl =>
        cases tl with
        | nil => rw [hfl] at hlen; simp at hlen
        | cons b tl2 => rfl
    simp [passwordResetOTPConfirm, prOtpConfirmValidate, hpw, hu, hm]

/-- Witness for the amended C4 at concrete stores: with duplicate email OTP
matches the newest-by-creation row (created 20) is among the matches and
bounds them all, while duplicate reset-OTP matches crash the confirmation
with the server error. -/
theorem otp_candidate_selection_newest_and_unique_get_witness :
    (∀ r ∈ csDupEmail.emailOtps.filter
        (fun r => r.user_id = u0.id && r.code = "123456" && !r.is_used),
      r.created ≤ 20) ∧
    passwordResetOTPConfirm (fun _ => none) csDup "u@example.com" "111111" "Newpass1" 100 =
      .error (.serverError "MultipleObjectsReturned") := by
  constructor
  · exact ((otp_candidate_selection_newest_and_unique_get (fun _ => none) csDupEmail
      "u@example.com" "123456" "pw" 100 u0
      { id := 2, user_id := 0, code := "123456", created := 20, expires_at := 2000,
        is_used := false }).1 (by decide)).2
  · exact (otp_candidate_selection_newest_and_unique_get (fun _ => none) csDup
      "u@example.com" "111111" "Newpass1" 100 u0
      { id := 1, user_id := 0, code := "111111", created := 10, expires_at := 2000,
        is_used := false }).2.2.2 rfl (by decide) (by decide)

end VerificationCore
